import Mathlib

/-!
Verification development for the homeassistant-barcode-scanner bridge.

The Go sources are shallowly embedded: Go structs become Lean structures,
Go maps become association lists (`List (key × value)`), byte values become
`Nat`, wall-clock instants become `Nat` millisecond counters passed
explicitly, and callbacks become returned `Option` values.  Each definition
mirrors one function of the repository; the file ends with the theorems
that settle the specification claims.
-/

namespace BarcodeBridge

/-! ## Keyboard layouts (pkg/scanner/layout_loader.go)

`LoadedKeyboardLayout` mirrors the struct of the same name: three
keycode → (unshifted, shifted) tables plus the ignored set.  The global
`loadedLayouts` map is passed explicitly as an association list; the
embedding models the state after `LoadKeyboardLayouts` has run (the lazy
reload of embedded YAML files is file-system I/O and is outside the model).
-/

structure LoadedKeyboardLayout where
  name : String
  letters : List (Nat × (Nat × Nat))
  numbers : List (Nat × (Nat × Nat))
  symbols : List (Nat × (Nat × Nat))
  ignored : List Nat
deriving DecidableEq

abbrev Layouts := List (String × LoadedKeyboardLayout)

/-- Zero value of the Go `LoadedKeyboardLayout` struct (nil maps, nil slice). -/
def emptyLayout : LoadedKeyboardLayout :=
  { name := "", letters := [], numbers := [], symbols := [], ignored := [] }

/-- `GetKeyboardLayout`: return the layout registered under `name`, falling
back to the `us` layout when `name` is unknown, and an error only when the
`us` fallback is missing as well. -/
def GetKeyboardLayout (layouts : Layouts) (name : String) :
    Except String LoadedKeyboardLayout :=
  match layouts.lookup name with
  | some layout => .ok layout
  | none =>
    match layouts.lookup "us" with
    | some usLayout => .ok usLayout
    | none => .error ("keyboard layout '" ++ name ++ "' not found and US fallback unavailable")

/-! ## HID processor (pkg/scanner, HIDProcessor)

The buffer is modelled as the filled prefix `p.buffer[:p.bufferLen]`
(`buffer : List Nat`) together with the allocated capacity
`bufferCap = len(p.buffer)` (256 at construction).  The `onScan` callback
becomes the `Option (List Nat)` component of each operation's result: the
byte string handed to the callback, if any.
-/

structure HIDProcessor where
  terminationChar : String
  keyboardLayout : String
  buffer : List Nat
  bufferCap : Nat
  lastActivity : Nat
deriving DecidableEq

def NewHIDProcessor (terminationChar keyboardLayout : String) (now : Nat) : HIDProcessor :=
  { terminationChar := terminationChar
    keyboardLayout := keyboardLayout
    buffer := []
    bufferCap := 256
    lastActivity := now }

/-- Go's `strings.ToLower`, restricted to the character-wise lowering it
performs on the configuration strings compared here (a kernel-computable
replacement for `String.toLower`, which maps `Char.toLower` over the
string). -/
def toLowerStr (s : String) : String := ⟨s.data.map Char.toLower⟩

/-- `isTerminationKey`: switch on the lower-cased configured termination
character exactly as the Go `switch` does (`hidKeyEnter = 0x28`,
`hidKeyTab = 0x2B`). -/
def HIDProcessor.isTerminationKey (p : HIDProcessor) (keyCode : Nat) : Bool :=
  let termChar := toLowerStr p.terminationChar
  if termChar = "enter" ∨ termChar = "return" then keyCode == 0x28
  else if termChar = "tab" then keyCode == 0x2B
  else if termChar = "none" ∨ termChar = "" then false
  else keyCode == 0x28

/-- ASCII whitespace trimmed by Go's `strings.TrimSpace` on a buffer of
single-byte characters (space, tab, LF, VT, FF, CR). -/
def isSpaceByte (b : Nat) : Bool :=
  b == 32 || b == 9 || b == 10 || b == 11 || b == 12 || b == 13

def trimSpace (l : List Nat) : List Nat :=
  ((l.dropWhile isSpaceByte).reverse.dropWhile isSpaceByte).reverse

/-- `finalizeInput`: on a non-empty buffer, trim whitespace, clear the
buffer, and hand the trimmed bytes to the scan callback when non-empty. -/
def HIDProcessor.finalizeInput (p : HIDProcessor) : HIDProcessor × Option (List Nat) :=
  if p.buffer.length = 0 then (p, none)
  else
    let barcode := trimSpace p.buffer
    let p' := { p with buffer := [] }
    if barcode ≠ [] then (p', some barcode) else (p', none)

/-- Layout resolution used by `keyCodeToChar`: `GetKeyboardLayout` for the
configured name; on error fall back to the `us` layout, and to the zero
value when that fails too (`layout, _ = GetKeyboardLayout("us")`). -/
def resolveLayout (layouts : Layouts) (name : String) : LoadedKeyboardLayout :=
  match GetKeyboardLayout layouts name with
  | .ok layout => layout
  | .error _ =>
    match GetKeyboardLayout layouts "us" with
    | .ok layout => layout
    | .error _ => emptyLayout

/-- Character lookup of `keyCodeToChar` for a resolved layout and shift
state: `ignored` short-circuits to 0, then `letters`, `numbers`, `symbols`
(where a zero unshifted entry yields 0), and 0 on a miss. -/
def lookupChar (layout : LoadedKeyboardLayout) (keyCode : Nat) (shifted : Bool) : Nat :=
  if layout.ignored.contains keyCode then 0
  else
    match layout.letters.lookup keyCode with
    | some chars => if shifted then chars.2 else chars.1
    | none =>
      match layout.numbers.lookup keyCode with
      | some chars => if shifted then chars.2 else chars.1
      | none =>
        match layout.symbols.lookup keyCode with
        | some chars =>
          if chars.1 = 0 then 0
          else if shifted then chars.2 else chars.1
        | none => 0

/-- `keyCodeToChar` (hidModifierShift = 0x22). -/
def keyCodeToChar (layouts : Layouts) (layoutName : String) (keyCode modifier : Nat) : Nat :=
  lookupChar (resolveLayout layouts layoutName) keyCode ((modifier &&& 0x22) != 0)

/-- Loop body of `ProcessData` over the keycodes at positions
2..min(len,8)-1 of the report. -/
def processKeys (layouts : Layouts) (now : Nat) (p : HIDProcessor) (modifier : Nat) :
    List Nat → HIDProcessor × Option (List Nat)
  | [] => (p, none)
  | keyCode :: rest =>
    if keyCode = 0 then processKeys layouts now p modifier rest
    else if p.isTerminationKey keyCode then p.finalizeInput
    else
      let c := keyCodeToChar layouts p.keyboardLayout keyCode modifier
      let p' :=
        if c ≠ 0 ∧ p.buffer.length < p.bufferCap - 1 then
          { p with buffer := p.buffer ++ [c], lastActivity := now }
        else p
      processKeys layouts now p' modifier rest

/-- `ProcessData`: ignore reports shorter than 3 bytes, otherwise scan the
keycodes at indices `2 ≤ i < min(len(data), 8)` with `modifier = data[0]`. -/
def HIDProcessor.ProcessData (p : HIDProcessor) (layouts : Layouts) (now : Nat)
    (data : List Nat) : HIDProcessor × Option (List Nat) :=
  if data.length < 3 then (p, none)
  else processKeys layouts now p (data.headD 0) ((data.take (min data.length 8)).drop 2)

/-- `CheckTimeout`: finalize when the buffer is non-empty and more than
100 ms have passed since the last activity. -/
def HIDProcessor.CheckTimeout (p : HIDProcessor) (now : Nat) :
    HIDProcessor × Option (List Nat) :=
  if p.buffer.length > 0 ∧ now - p.lastActivity > 100 then p.finalizeInput else (p, none)

/-- `Reset`. -/
def HIDProcessor.Reset (p : HIDProcessor) : HIDProcessor :=
  { p with buffer := [] }

/-! ## Specification-side decoder (claim C1)

`processReportSpec` is written from the words of the claim, not from the
source: the termination keycode is obtained once from the claim's
termination mapping, the shift state is computed once from byte 0, and the
keycodes at positions 2..min(len,8) are scanned in order. -/

/-- Termination mapping as the claim states it: `enter`/`return` → 0x28,
`tab` → 0x2B, `none`/empty → no termination keycode, anything else → 0x28,
case-insensitively. -/
def terminationKeycodeSpec (terminationChar : String) : Option Nat :=
  let t := toLowerStr terminationChar
  if t = "enter" ∨ t = "return" then some 0x28
  else if t = "tab" then some 0x2B
  else if t = "none" ∨ t = "" then none
  else some 0x28

/-- A keycode equals the configured termination keycode (when one exists). -/
def termMatches (terminationChar : String) (keyCode : Nat) : Bool :=
  match terminationKeycodeSpec terminationChar with
  | some t => keyCode == t
  | none => false

def processKeysSpec (layouts : Layouts) (now : Nat) (p : HIDProcessor) (shifted : Bool) :
    List Nat → HIDProcessor × Option (List Nat)
  | [] => (p, none)
  | keyCode :: rest =>
    if keyCode = 0 then processKeysSpec layouts now p shifted rest
    else if termMatches p.terminationChar keyCode then p.finalizeInput
    else
      let c := lookupChar (resolveLayout layouts p.keyboardLayout) keyCode shifted
      let p' :=
        if c ≠ 0 ∧ p.buffer.length < p.bufferCap - 1 then
          { p with buffer := p.buffer ++ [c], lastActivity := now }
        else p
      processKeysSpec layouts now p' shifted rest

def processReportSpec (layouts : Layouts) (now : Nat) (p : HIDProcessor)
    (data : List Nat) : HIDProcessor × Option (List Nat) :=
  if data.length < 3 then (p, none)
  else
    processKeysSpec layouts now p ((data.headD 0 &&& 0x22) != 0)
      ((data.take (min data.length 8)).drop 2)

/-! ## Configuration (pkg/config/config.go)

Only the MQTT part of the configuration is needed by the claims.
`QoS` is a Go `byte` (modelled as `Nat`), `KeepAlive` a Go `int`
(modelled as `Int`). -/

structure MQTTConfig where
  brokerURL : String
  username : String
  password : String
  clientID : String
  qos : Nat
  keepAlive : Int
  insecureSkipVerify : Bool
deriving DecidableEq

/-- `setMQTTDefaults`: four independent zero-value checks, each replacing
the field by its default. -/
def setMQTTDefaults (c : MQTTConfig) : MQTTConfig :=
  { c with
    brokerURL := if c.brokerURL = "" then "mqtt://localhost:1883" else c.brokerURL
    clientID := if c.clientID = "" then "ha-barcode-bridge" else c.clientID
    qos := if c.qos = 0 then 1 else c.qos
    keepAlive := if c.keepAlive = 0 then 60 else c.keepAlive }

/-- `validateMQTTParams`: reject qos above 2 and keep_alive below 10. -/
def validateMQTTParams (c : MQTTConfig) : Except String Unit :=
  if c.qos > 2 then .error "mqtt.qos must be 0, 1, or 2"
  else if c.keepAlive < 10 then .error "mqtt.keep_alive must be at least 10 seconds"
  else .ok ()

/-- MQTT leg of `LoadConfig`: apply the defaults, then validate; the
defaulted configuration is what the rest of the program receives. -/
def loadConfigMQTT (c : MQTTConfig) : Except String MQTTConfig :=
  match validateMQTTParams (setMQTTDefaults c) with
  | .error e => .error e
  | .ok _ => .ok (setMQTTDefaults c)

/-! ## Scanner manager (pkg/scanner/manager.go)

Go maps keyed by scanner id become association lists; `mapUpdate` and
`mapDelete` mirror Go map assignment and `delete`.  Whether a device probe
(`TryInitialConnect`) or a session `Start` succeeds depends on the external
HID environment, so both are oracle parameters.  `startScanner`'s second
component is the ordered trace of its observable steps: the session is
stored in the map, then its `Start` is called, and on a `Start` failure the
entry is removed again. -/

structure ScannerIdentification where
  vendorID : Nat
  productID : Nat
  serial : String
deriving DecidableEq

structure ScannerConfig where
  id : String
  name : String
  identification : ScannerIdentification
  terminationChar : String
  keyboardLayout : String
deriving DecidableEq

def mapUpdate {α : Type} (l : List (String × α)) (k : String) (v : α) : List (String × α) :=
  if l.any (fun e => e.1 == k) then l.map (fun e => if e.1 = k then (k, v) else e)
  else l ++ [(k, v)]

def mapDelete {α : Type} (l : List (String × α)) (k : String) : List (String × α) :=
  l.filter (fun e => e.1 != k)

inductive MgrEvent where
  | stored (id : String)
  | startCalled (id : String)
  | removed (id : String)
deriving DecidableEq

/-- `startScanner`: store the new session under `cfg.ID` before calling its
`Start`; when `Start` fails the entry is deleted again and the error is
only logged by the caller. -/
def startScanner (startOk : String → Bool) (scanners : List (String × ScannerConfig))
    (cfg : ScannerConfig) : List (String × ScannerConfig) × List MgrEvent :=
  let stored := mapUpdate scanners cfg.id cfg
  if startOk cfg.id then
    (stored, [.stored cfg.id, .startCalled cfg.id])
  else
    (mapDelete stored cfg.id, [.stored cfg.id, .startCalled cfg.id, .removed cfg.id])

/-- `checkInitialConnections`: probe every config with a disposable
session's `TryInitialConnect`; fatal error iff there is at least one config
and no probe succeeded. -/
def checkInitialConnections (probe : ScannerConfig → Bool)
    (configs : List ScannerConfig) : Option String :=
  if (configs.filter probe).length = 0 ∧ 0 < configs.length then
    some "FATAL: none of the configured scanners could connect"
  else none

/-- `ScannerManager.Start`: liveness check first, then start one session
per config; an individual `startScanner` failure does not abort the loop. -/
def managerStart (probe : ScannerConfig → Bool) (startOk : String → Bool)
    (configs : List ScannerConfig) :
    Except String (List (String × ScannerConfig) × List MgrEvent) :=
  match checkInitialConnections probe configs with
  | some e => .error e
  | none =>
    .ok (configs.foldl
      (fun acc cfg =>
        let r := startScanner startOk acc.1 cfg
        (r.1, acc.2 ++ r.2)) ([], []))

/-- Manager state relevant to `Stop`: the session map and whether the
`stopCh` channel has already been closed. -/
structure ManagerState where
  scanners : List (String × ScannerConfig)
  stopChClosed : Bool
deriving DecidableEq

/-- Fresh manager as built by `NewScannerManager` (open `stopCh`). -/
def newManagerState (scanners : List (String × ScannerConfig)) : ManagerState :=
  { scanners := scanners, stopChClosed := false }

/-- `ScannerManager.Stop`: `close(sm.stopCh)` first — closing an
already-closed Go channel panics at runtime, modelled as the error result —
then stop every session (`BarcodeScanner.Stop` always returns nil) and
clear the map. -/
def managerStop (m : ManagerState) : Except String ManagerState :=
  if m.stopChClosed then .error "panic: close of closed channel"
  else .ok { scanners := [], stopChClosed := true }

/-! ## Scanner session stop (pkg/scanner, BarcodeScanner.Stop) -/

structure BarcodeScannerState where
  ctxCancelled : Bool
  device : Option Nat
  deviceInfoPresent : Bool
  connected : Bool
deriving DecidableEq

/-- `BarcodeScanner.Stop`: cancel the context (cancelling twice is a
no-op), clear device, device info and the connected flag, and close the
previously held device handle when there was one (returned as the second
component); the function always returns nil. -/
def scannerStop (s : BarcodeScannerState) : BarcodeScannerState × Option Nat :=
  ({ ctxCancelled := true, device := none, deviceInfoPresent := false, connected := false },
    s.device)

/-! ## Home Assistant integration (pkg/homeassistant/integration.go)

MQTT publishes are modelled as values appended to a message trace.
Attribute payloads are JSON-marshalled Go maps; `json.Marshal` renders
them deterministically (keys sorted), so a payload is represented by the
data it serializes rather than by the rendered byte string. -/

inductive Payload where
  | str (s : String)
  | summaryAttrs (connectedScanners totalScanners : Nat) (scannerList : List String)
  | diagAttrs (version : String) (configCount : Nat)
deriving DecidableEq

structure MqttMsg where
  topic : String
  payload : Payload
  retained : Bool
deriving DecidableEq

structure ScannerTopics where
  config : String
  state : String
  availability : String
  attributes : String
deriving DecidableEq

structure ScannerDevice where
  id : String
  name : String
  connected : Bool
  topics : ScannerTopics
deriving DecidableEq

structure Integration where
  mqttConnected : Bool
  discoveryPrefix : String
  instanceID : String
  hostname : String
  version : String
  scanners : List (String × ScannerDevice)
  scannerConfigIDs : List String
deriving DecidableEq

/-- Replace the entry stored under an existing key (Go map assignment via
the `*ScannerDevice` pointer held in the map). -/
def updateEntry (l : List (String × ScannerDevice)) (id : String) (sd : ScannerDevice) :
    List (String × ScannerDevice) :=
  l.map (fun e => if e.1 = id then (id, sd) else e)

/-- `mqtt.Client.Publish`: fails immediately when the client is not
connected, otherwise delivers the message. -/
def mqttPublish (ig : Integration) (topic : String) (payload : Payload) (retained : Bool) :
    Except String MqttMsg :=
  if ig.mqttConnected then .ok { topic := topic, payload := payload, retained := retained }
  else .error "MQTT client is not connected"

/-- `generateBridgeDeviceID`: instance id, falling back to the hostname. -/
def generateBridgeDeviceID (ig : Integration) : String :=
  if ig.instanceID ≠ "" then "ha-barcode-bridge-" ++ ig.instanceID
  else "ha-barcode-bridge-" ++ ig.hostname

/-- `generateBridgeEntityTopics`. -/
def generateBridgeEntityTopics (ig : Integration) (entityType : String) : ScannerTopics :=
  let baseTopic := ig.discoveryPrefix ++ "/sensor/" ++ generateBridgeDeviceID ig ++ "-" ++ entityType
  { config := baseTopic ++ "/config"
    state := baseTopic ++ "/state"
    availability := baseTopic ++ "/availability"
    attributes := baseTopic ++ "/attributes" }

def getConnectedScannerCount (ig : Integration) : Nat :=
  (ig.scanners.filter (fun e => e.2.connected)).length

/-- `getScannerList` ranges over the Go map of scanners and collects the
ids; here the entries appear in the association list's order.  Go
randomizes map-range order afresh on every `range` statement, so the order
of this list is NOT stable in the program — the `…Ord` variants below
thread that per-call order explicitly for the claims that depend on it. -/
def getScannerList (ig : Integration) : List String :=
  ig.scanners.map (fun e => e.1)

/-- `getScannerSummaryStatus`. -/
def getScannerSummaryStatus (ig : Integration) : String :=
  let connectedCount := getConnectedScannerCount ig
  let totalCount := ig.scanners.length
  if connectedCount = 0 then "offline"
  else if connectedCount = totalCount then "online"
  else "partial"

/-- `getDiagnosticsStatus`. -/
def getDiagnosticsStatus (ig : Integration) : String :=
  if ig.mqttConnected then "healthy" else "error"

/-- `publishScannerAvailability` (retained). -/
def publishScannerAvailability (ig : Integration) (id status : String) :
    Except String MqttMsg :=
  match ig.scanners.lookup id with
  | none => .error ("scanner " ++ id ++ " not found")
  | some sd => mqttPublish ig sd.topics.availability (.str status) true

/-- `publishScannerState` (not retained). -/
def publishScannerState (ig : Integration) (id state : String) : Except String MqttMsg :=
  match ig.scanners.lookup id with
  | none => .error ("scanner " ++ id ++ " not found")
  | some sd => mqttPublish ig sd.topics.state (.str state) false

/-- `publishScannerSummary`: state, then the attributes. -/
def publishScannerSummary (ig : Integration) : Except String (List MqttMsg) :=
  match mqttPublish ig (generateBridgeEntityTopics ig "scanners").state
      (.str (getScannerSummaryStatus ig)) false with
  | .error e => .error e
  | .ok m1 =>
    match mqttPublish ig (generateBridgeEntityTopics ig "scanners").attributes
        (.summaryAttrs (getConnectedScannerCount ig) ig.scanners.length (getScannerList ig))
        false with
    | .error e => .error e
    | .ok m2 => .ok [m1, m2]

/-- `publishDiagnostics`: state, then the attributes. -/
def publishDiagnostics (ig : Integration) : Except String (List MqttMsg) :=
  match mqttPublish ig (generateBridgeEntityTopics ig "diagnostics").state
      (.str (getDiagnosticsStatus ig)) false with
  | .error e => .error e
  | .ok m1 =>
    match mqttPublish ig (generateBridgeEntityTopics ig "diagnostics").attributes
        (.diagAttrs ig.version ig.scannerConfigIDs.length) false with
    | .error e => .error e
    | .ok m2 => .ok [m1, m2]

/-- Trailing part of `SetScannerConnected`: update summary and diagnostics;
failures there are logged, not returned. -/
def bridgeEntityUpdates (ig' : Integration) : List MqttMsg :=
  (match publishScannerSummary ig' with | .ok ms => ms | .error _ => [])
    ++ (match publishDiagnostics ig' with | .ok ms => ms | .error _ => [])

/-- Publish sequence of `SetScannerConnected` after the `Connected` field
has been updated: availability (online/offline, retained); when connected,
additionally the neutral `"unknown"` state; then the bridge entity
updates.  The second component is the error returned, the first the
messages delivered before any failure. -/
def setScannerConnectedPublishes (ig' : Integration) (id : String) (connected : Bool) :
    List MqttMsg × Option String :=
  if connected then
    match publishScannerAvailability ig' id "online" with
    | .error e => ([], some e)
    | .ok m1 =>
      match publishScannerState ig' id "unknown" with
      | .error e => ([m1], some e)
      | .ok m2 => (m1 :: m2 :: bridgeEntityUpdates ig', none)
  else
    match publishScannerAvailability ig' id "offline" with
    | .error e => ([], some e)
    | .ok m1 => (m1 :: bridgeEntityUpdates ig', none)

def setScannerConnectedCore (ig' : Integration) (id : String) (connected : Bool) :
    Integration × List MqttMsg × Option String :=
  (ig', setScannerConnectedPublishes ig' id connected)

/-- `Integration.SetScannerConnected`: look the scanner up, set its
`Connected` field (a mutation through the map's pointer, so it persists
even when a later publish fails), then run the publish sequence.  Result:
final state, messages delivered, error returned. -/
def SetScannerConnected (ig : Integration) (id : String) (connected : Bool) :
    Integration × List MqttMsg × Option String :=
  match ig.scanners.lookup id with
  | none => (ig, [], some ("scanner " ++ id ++ " not found"))
  | some sd =>
    setScannerConnectedCore
      { ig with scanners := updateEntry ig.scanners id { sd with connected := connected } }
      id connected

/-! ### Map-iteration order (claim C9)

`getScannerList` is produced by `for scannerID := range integration.scanners`,
and Go randomizes map-range order on every range statement, so the order of
the `scanner_list` attribute is chosen afresh per call.  The `…Ord` variants
below thread that per-call order explicitly: `ord` is the key sequence the
range statement visits — an arbitrary permutation of the map's keys
(`validRangeOrder`). -/

/-- The orders a Go map range statement over `ig.scanners` may produce:
every key exactly once, in any order. -/
def validRangeOrder (ig : Integration) (ord : List String) : Prop :=
  ord.Perm (ig.scanners.map (fun e => e.1))

instance validRangeOrderDecidable (ig : Integration) (ord : List String) :
    Decidable (validRangeOrder ig ord) := by
  unfold validRangeOrder
  infer_instance

/-- `publishScannerSummary` with the map-range order of its
`getScannerList` call made explicit. -/
def publishScannerSummaryOrd (ig : Integration) (ord : List String) :
    Except String (List MqttMsg) :=
  match mqttPublish ig (generateBridgeEntityTopics ig "scanners").state
      (.str (getScannerSummaryStatus ig)) false with
  | .error e => .error e
  | .ok m1 =>
    match mqttPublish ig (generateBridgeEntityTopics ig "scanners").attributes
        (.summaryAttrs (getConnectedScannerCount ig) ig.scanners.length ord) false with
    | .error e => .error e
    | .ok m2 => .ok [m1, m2]

def bridgeEntityUpdatesOrd (ig' : Integration) (ord : List String) : List MqttMsg :=
  (match publishScannerSummaryOrd ig' ord with | .ok ms => ms | .error _ => [])
    ++ (match publishDiagnostics ig' with | .ok ms => ms | .error _ => [])

def setScannerConnectedPublishesOrd (ig' : Integration) (ord : List String)
    (id : String) (connected : Bool) : List MqttMsg × Option String :=
  if connected then
    match publishScannerAvailability ig' id "online" with
    | .error e => ([], some e)
    | .ok m1 =>
      match publishScannerState ig' id "unknown" with
      | .error e => ([m1], some e)
      | .ok m2 => (m1 :: m2 :: bridgeEntityUpdatesOrd ig' ord, none)
  else
    match publishScannerAvailability ig' id "offline" with
    | .error e => ([], some e)
    | .ok m1 => (m1 :: bridgeEntityUpdatesOrd ig' ord, none)

/-- `Integration.SetScannerConnected` with the map-range order of the
summary's `getScannerList` call made explicit. -/
def SetScannerConnectedOrd (ig : Integration) (ord : List String) (id : String)
    (connected : Bool) : Integration × List MqttMsg × Option String :=
  match ig.scanners.lookup id with
  | none => (ig, [], some ("scanner " ++ id ++ " not found"))
  | some sd =>
    ({ ig with scanners := updateEntry ig.scanners id { sd with connected := connected } },
      setScannerConnectedPublishesOrd
        { ig with scanners := updateEntry ig.scanners id { sd with connected := connected } }
        ord id connected)

/-- Message equivalence modulo the map-range order of `scanner_list`: same
topic, same retained flag, and either identical payloads or summary
attribute payloads with the same counts whose scanner lists are
permutations of each other. -/
def msgEquiv (m1 m2 : MqttMsg) : Prop :=
  m1.topic = m2.topic ∧ m1.retained = m2.retained ∧
    (m1.payload = m2.payload ∨
      ∃ c t l1 l2, m1.payload = .summaryAttrs c t l1 ∧ m2.payload = .summaryAttrs c t l2 ∧
        l1.Perm l2)

/-! ## Concrete instances used by counterexamples and witnesses -/

def usExample : LoadedKeyboardLayout :=
  { name := "us", letters := [(4, (97, 65))], numbers := [(34, (53, 37))],
    symbols := [(45, (45, 95)), (100, (0, 7))], ignored := [57] }

def layoutsExample : Layouts := [("us", usExample)]

def procExample : HIDProcessor :=
  { terminationChar := "enter", keyboardLayout := "us", buffer := [32, 65, 32],
    bufferCap := 256, lastActivity := 0 }

def cfgExampleA : ScannerConfig :=
  { id := "a", name := "Scanner A", identification := ⟨1, 2, ""⟩,
    terminationChar := "enter", keyboardLayout := "us" }

def cfgExampleB : ScannerConfig :=
  { id := "b", name := "Scanner B", identification := ⟨3, 4, ""⟩,
    terminationChar := "tab", keyboardLayout := "us" }

def topicsExample : ScannerTopics :=
  { config := "c", state := "st", availability := "av", attributes := "at" }

def sdExample : ScannerDevice :=
  { id := "s1", name := "Scanner", connected := true, topics := topicsExample }

def igExample : Integration :=
  { mqttConnected := true, discoveryPrefix := "ha", instanceID := "i", hostname := "h",
    version := "v", scanners := [("s1", sdExample)], scannerConfigIDs := ["s1"] }

def sdExampleOff : ScannerDevice := { sdExample with connected := false }

def igExampleOff : Integration := { igExample with scanners := [("s1", sdExampleOff)] }

def igExampleEmpty : Integration := { igExample with scanners := [] }

def procFullExample : HIDProcessor :=
  { terminationChar := "enter", keyboardLayout := "us", buffer := [65, 66, 67],
    bufferCap := 4, lastActivity := 0 }

def mqttCfgExample : MQTTConfig :=
  { brokerURL := "", username := "", password := "", clientID := "", qos := 0,
    keepAlive := 0, insecureSkipVerify := false }

def probeExampleA : ScannerConfig → Bool := fun c => c.id == "a"

def startOkExampleA : String → Bool := fun s => s == "a"

def scannerStateExample : BarcodeScannerState :=
  { ctxCancelled := false, device := some 3, deviceInfoPresent := true, connected := true }

def sdExampleA : ScannerDevice :=
  { id := "a", name := "Scanner A", connected := true,
    topics := { config := "ca", state := "sta", availability := "ava", attributes := "ata" } }

def sdExampleB : ScannerDevice :=
  { id := "b", name := "Scanner B", connected := true,
    topics := { config := "cb", state := "stb", availability := "avb", attributes := "atb" } }

def igTwoExample : Integration :=
  { mqttConnected := true, discoveryPrefix := "ha", instanceID := "i", hostname := "h",
    version := "v", scanners := [("a", sdExampleA), ("b", sdExampleB)],
    scannerConfigIDs := ["a", "b"] }

/-! ## Helper lemmas -/

lemma isTerminationKey_eq_termMatches (p : HIDProcessor) (k : Nat) :
    p.isTerminationKey k = termMatches p.terminationChar k := by
  unfold HIDProcessor.isTerminationKey termMatches terminationKeycodeSpec
  by_cases h1 : toLowerStr p.terminationChar = "enter" ∨ toLowerStr p.terminationChar = "return" <;>
    by_cases h2 : toLowerStr p.terminationChar = "tab" <;>
      by_cases h3 : toLowerStr p.terminationChar = "none" ∨ toLowerStr p.terminationChar = "" <;>
        simp [h1, h2, h3]

lemma processKeys_eq_spec (layouts : Layouts) (now : Nat) (modifier : Nat) :
    ∀ (keys : List Nat) (p : HIDProcessor),
      processKeys layouts now p modifier keys =
        processKeysSpec layouts now p ((modifier &&& 0x22) != 0) keys := by
  intro keys
  induction keys with
  | nil => intro p; rfl
  | cons k rest ih =>
    intro p
    simp only [processKeys, processKeysSpec, isTerminationKey_eq_termMatches, keyCodeToChar]
    by_cases hk : k = 0
    · simp [hk, ih]
    · simp only [hk, if_false]
      by_cases ht : termMatches p.terminationChar k
      · simp [ht]
      · simp [ht, ih]

lemma finalizeInput_fst_buffer (p : HIDProcessor) : p.finalizeInput.1.buffer = [] := by
  unfold HIDProcessor.finalizeInput
  by_cases h : p.buffer.length = 0
  · simpa [h] using List.length_eq_zero.mp h
  · by_cases hb : trimSpace p.buffer ≠ [] <;> simp [h, hb]

lemma finalizeInput_fst_bufferCap (p : HIDProcessor) :
    p.finalizeInput.1.bufferCap = p.bufferCap := by
  unfold HIDProcessor.finalizeInput
  by_cases h : p.buffer.length = 0
  · simp [h]
  · by_cases hb : trimSpace p.buffer ≠ [] <;> simp [h, hb]

lemma isTerminationKey_zero (p : HIDProcessor) : p.isTerminationKey 0 = false := by
  unfold HIDProcessor.isTerminationKey
  by_cases h1 : toLowerStr p.terminationChar = "enter" ∨ toLowerStr p.terminationChar = "return" <;>
    by_cases h2 : toLowerStr p.terminationChar = "tab" <;>
      by_cases h3 : toLowerStr p.terminationChar = "none" ∨ toLowerStr p.terminationChar = "" <;>
        simp [h1, h2, h3]

lemma processKeys_invariant (layouts : Layouts) (now modifier : Nat) :
    ∀ (keys : List Nat) (p : HIDProcessor), p.buffer.length ≤ p.bufferCap - 1 →
      (processKeys layouts now p modifier keys).1.buffer.length ≤ p.bufferCap - 1 ∧
        (processKeys layouts now p modifier keys).1.bufferCap = p.bufferCap := by
  intro keys
  induction keys with
  | nil => intro p h; exact ⟨h, rfl⟩
  | cons k rest ih =>
    intro p h
    simp only [processKeys]
    by_cases hk : k = 0
    · rw [if_pos hk]; exact ih p h
    · rw [if_neg hk]
      by_cases ht : p.isTerminationKey k = true
      · rw [if_pos ht]
        refine ⟨?_, finalizeInput_fst_bufferCap p⟩
        rw [finalizeInput_fst_buffer]
        exact Nat.zero_le _
      · rw [if_neg ht]
        by_cases hc : keyCodeToChar layouts p.keyboardLayout k modifier ≠ 0 ∧
            p.buffer.length < p.bufferCap - 1
        · rw [if_pos hc]
          have h2 := ih ⟨p.terminationChar, p.keyboardLayout,
            p.buffer ++ [keyCodeToChar layouts p.keyboardLayout k modifier], p.bufferCap, now⟩
            (by
              show (p.buffer ++ [keyCodeToChar layouts p.keyboardLayout k modifier]).length ≤
                p.bufferCap - 1
              have hlt := hc.2
              simp only [List.length_append, List.length_cons, List.length_nil]
              omega)
          simpa using h2
        · rw [if_neg hc]
          exact ih p h

lemma processKeys_full_no_term (layouts : Layouts) (now modifier : Nat) :
    ∀ (keys : List Nat) (p : HIDProcessor), ¬ p.buffer.length < p.bufferCap - 1 →
      (∀ k ∈ keys, p.isTerminationKey k = false) →
      processKeys layouts now p modifier keys = (p, none) := by
  intro keys
  induction keys with
  | nil => intro p _ _; rfl
  | cons k rest ih =>
    intro p hfull hterm
    simp only [processKeys]
    by_cases hk : k = 0
    · simp only [hk, if_true]
      exact ih p hfull fun x hx => hterm x (List.mem_cons_of_mem _ hx)
    · simp only [hk, if_false]
      have hkterm : p.isTerminationKey k = false := hterm k (List.mem_cons_self _ _)
      simp only [hkterm, Bool.false_eq_true, if_false]
      have : ¬ (keyCodeToChar layouts p.keyboardLayout k modifier ≠ 0 ∧
          p.buffer.length < p.bufferCap - 1) := fun hc => hfull hc.2
      simp only [this, if_false]
      exact ih p hfull fun x hx => hterm x (List.mem_cons_of_mem _ hx)

/-- Claim C2: `finalizeInput` trims leading and trailing whitespace, leaves
the buffer empty afterwards, and invokes the scan callback with exactly the
trimmed remainder when that remainder is non-empty and not at all when it is
empty — so the delivered barcode is never empty and buffers of only
whitespace produce no callback. -/
theorem hid_finalize_trims_and_never_emits_empty (p : HIDProcessor) :
    p.finalizeInput.1.buffer = [] ∧
      p.finalizeInput.2 =
        (if trimSpace p.buffer = [] then none else some (trimSpace p.buffer)) ∧
      (∀ bc, p.finalizeInput.2 = some bc → bc ≠ []) := by
  refine ⟨finalizeInput_fst_buffer p, ?_, ?_⟩
  · unfold HIDProcessor.finalizeInput
    by_cases h : p.buffer.length = 0
    · have hnil : p.buffer = [] := List.length_eq_zero.mp h
      simp [h, hnil, trimSpace]
    · by_cases hb : trimSpace p.buffer = [] <;> simp [h, hb]
  · intro bc hbc
    unfold HIDProcessor.finalizeInput at hbc
    by_cases h : p.buffer.length = 0
    · simp [h] at hbc
    · by_cases hb : trimSpace p.buffer = []
      · simp [h, hb] at hbc
      · simp [h, hb] at hbc
        rw [← hbc]
        exact hb

/-- Claim C7: `ProcessData` and `CheckTimeout` preserve the invariant
`bufferLen ≤ cap(buffer) − 1`; with a full buffer a report without
termination keycodes changes nothing (the bytes are dropped, the buffered
content is kept), and a report carrying the configured termination keycode
still finalizes the buffered barcode. -/
theorem hid_buffer_invariant_and_full_buffer_behavior :
    (∀ (layouts : Layouts) (now : Nat) (p : HIDProcessor) (data : List Nat),
        p.buffer.length ≤ p.bufferCap - 1 →
        (p.ProcessData layouts now data).1.buffer.length ≤ p.bufferCap - 1 ∧
          (p.ProcessData layouts now data).1.bufferCap = p.bufferCap) ∧
    (∀ (now : Nat) (p : HIDProcessor), p.buffer.length ≤ p.bufferCap - 1 →
        (p.CheckTimeout now).1.buffer.length ≤ p.bufferCap - 1 ∧
          (p.CheckTimeout now).1.bufferCap = p.bufferCap) ∧
    (∀ (layouts : Layouts) (now : Nat) (p : HIDProcessor) (data : List Nat),
        ¬ p.buffer.length < p.bufferCap - 1 →
        (∀ k ∈ (data.take (min data.length 8)).drop 2, p.isTerminationKey k = false) →
        p.ProcessData layouts now data = (p, none)) ∧
    (∀ (layouts : Layouts) (now : Nat) (p : HIDProcessor) (m k : Nat),
        p.isTerminationKey k = true →
        p.ProcessData layouts now [m, 0, k] = p.finalizeInput) := by
  refine ⟨?_, ?_, ?_, ?_⟩
  · intro layouts now p data h
    unfold HIDProcessor.ProcessData
    by_cases hlen : data.length < 3
    · simp [hlen, h]
    · simp only [hlen, if_false]
      exact processKeys_invariant layouts now (data.headD 0) _ p h
  · intro now p h
    unfold HIDProcessor.CheckTimeout
    by_cases ht : p.buffer.length > 0 ∧ now - p.lastActivity > 100
    · rw [if_pos ht]
      refine ⟨?_, finalizeInput_fst_bufferCap p⟩
      rw [finalizeInput_fst_buffer]
      exact Nat.zero_le _
    · rw [if_neg ht]
      exact ⟨h, rfl⟩
  · intro layouts now p data hfull hterm
    unfold HIDProcessor.ProcessData
    by_cases hlen : data.length < 3
    · simp [hlen]
    · simp only [hlen, if_false]
      exact processKeys_full_no_term layouts now (data.headD 0) _ p hfull hterm
  · intro layouts now p m k hk
    have hk0 : k ≠ 0 := by
      intro h0
      rw [h0, isTerminationKey_zero] at hk
      exact Bool.false_ne_true hk
    simp [HIDProcessor.ProcessData, processKeys, hk0, hk]

/-- Claim C1: for every byte sequence given to the HID decoder's
`ProcessData`, reports shorter than 3 bytes change nothing; otherwise the
shift state is `(byte 0 & 0x22) != 0`, the keycodes at positions
2..min(len,8) are scanned in order, a keycode equal to the configured
termination keycode (enter/return → 0x28, tab → 0x2B, none/empty → no
termination keycode, any other value → 0x28, case-insensitively) triggers
finalize, and every other non-zero keycode that the layout maps to a
non-zero byte is appended (the shifted member of the pair when shifted)
when the buffer has room, refreshing `lastActivity`: `ProcessData`
coincides with the function written from the claim's words. -/
theorem hid_ProcessData_follows_claimed_algorithm
    (layouts : Layouts) (now : Nat) (p : HIDProcessor) (data : List Nat) :
    p.ProcessData layouts now data = processReportSpec layouts now p data := by
  unfold HIDProcessor.ProcessData processReportSpec
  by_cases h : data.length < 3
  · simp [h]
  · simp only [h, if_false]
    exact processKeys_eq_spec layouts now (data.headD 0) _ p

/-- Claim C8: `GetKeyboardLayout` returns the layout of the requested name
when it is loaded and otherwise the `us` layout (so an unknown layout name
never makes the decoder fail while `us` is present); the decoder's
character lookup consults the `ignored` set first (yielding 0), then
`letters`, then `numbers`, then `symbols`, and yields 0 on a miss. -/
theorem layout_fallback_and_lookup_order :
    (∀ (layouts : Layouts) (name : String) (L : LoadedKeyboardLayout),
        layouts.lookup name = some L → GetKeyboardLayout layouts name = .ok L) ∧
    (∀ (layouts : Layouts) (name : String) (U : LoadedKeyboardLayout),
        layouts.lookup name = none → layouts.lookup "us" = some U →
        GetKeyboardLayout layouts name = .ok U) ∧
    (∀ (L : LoadedKeyboardLayout) (k : Nat) (sh : Bool),
        L.ignored.contains k = true → lookupChar L k sh = 0) ∧
    (∀ (L : LoadedKeyboardLayout) (k : Nat) (sh : Bool) (cs : Nat × Nat),
        L.ignored.contains k = false → L.letters.lookup k = some cs →
        lookupChar L k sh = if sh then cs.2 else cs.1) ∧
    (∀ (L : LoadedKeyboardLayout) (k : Nat) (sh : Bool) (cs : Nat × Nat),
        L.ignored.contains k = false → L.letters.lookup k = none →
        L.numbers.lookup k = some cs →
        lookupChar L k sh = if sh then cs.2 else cs.1) ∧
    (∀ (L : LoadedKeyboardLayout) (k : Nat) (sh : Bool) (cs : Nat × Nat),
        L.ignored.contains k = false → L.letters.lookup k = none →
        L.numbers.lookup k = none → L.symbols.lookup k = some cs →
        lookupChar L k sh = if cs.1 = 0 then 0 else if sh then cs.2 else cs.1) ∧
    (∀ (L : LoadedKeyboardLayout) (k : Nat) (sh : Bool),
        L.ignored.contains k = false → L.letters.lookup k = none →
        L.numbers.lookup k = none → L.symbols.lookup k = none →
        lookupChar L k sh = 0) := by
  refine ⟨?_, ?_, ?_, ?_, ?_, ?_, ?_⟩
  · intro layouts name L h
    simp [GetKeyboardLayout, h]
  · intro layouts name U h hus
    simp [GetKeyboardLayout, h, hus]
  · intro L k sh h
    have h' : k ∈ L.ignored := by simpa using h
    simp [lookupChar, h']
  · intro L k sh cs h hl
    have h' : k ∉ L.ignored := by simpa using h
    simp [lookupChar, h', hl]
  · intro L k sh cs h hl hn
    have h' : k ∉ L.ignored := by simpa using h
    simp [lookupChar, h', hl, hn]
  · intro L k sh cs h hl hn hs
    have h' : k ∉ L.ignored := by simpa using h
    simp [lookupChar, h', hl, hn, hs]
  · intro L k sh h hl hn hs
    have h' : k ∉ L.ignored := by simpa using h
    simp [lookupChar, h', hl, hn, hs]

lemma setMQTTDefaults_qos_ne_zero (c : MQTTConfig) : (setMQTTDefaults c).qos ≠ 0 := by
  unfold setMQTTDefaults
  by_cases h : c.qos = 0 <;> simp [h]

/-- Claim C10: `LoadConfig` silently replaces a zero (or omitted) `mqtt.qos`
with 1 and a zero `keep_alive` with 60 before validation, so the resulting
client can never be configured with QoS 0 even though validation accepts
any qos of at most 2. -/
theorem config_defaults_exclude_qos_zero :
    (∀ c : MQTTConfig, c.qos = 0 → (setMQTTDefaults c).qos = 1) ∧
    (∀ c : MQTTConfig, c.keepAlive = 0 → (setMQTTDefaults c).keepAlive = 60) ∧
    (∀ c : MQTTConfig, (setMQTTDefaults c).qos ≠ 0) ∧
    (∀ c : MQTTConfig, c.qos ≤ 2 → 10 ≤ c.keepAlive → validateMQTTParams c = .ok ()) ∧
    (∀ c c' : MQTTConfig, loadConfigMQTT c = .ok c' → c'.qos ≠ 0) := by
  refine ⟨?_, ?_, setMQTTDefaults_qos_ne_zero, ?_, ?_⟩
  · intro c h; simp [setMQTTDefaults, h]
  · intro c h; simp [setMQTTDefaults, h]
  · intro c hq hk
    unfold validateMQTTParams
    rw [if_neg (by omega), if_neg (by omega)]
  · intro c c' h
    unfold loadConfigMQTT at h
    cases hv : validateMQTTParams (setMQTTDefaults c) with
    | error e => rw [hv] at h; cases h
    | ok u =>
      rw [hv] at h
      cases h
      exact setMQTTDefaults_qos_ne_zero c

/-- Counterexample to claim C6 as stated: with an empty scanner map every
scanner is (vacuously) connected, yet the summary is `"offline"`, not
`"online"`, and not the `"partial"` the claim's parenthetical demands. -/
theorem summary_status_empty_map_counterexample :
    getScannerSummaryStatus igExampleEmpty = "offline" ∧
      igExampleEmpty.scanners.all (fun e => e.2.connected) = true ∧
      getScannerSummaryStatus igExampleEmpty ≠ "online" ∧
      getScannerSummaryStatus igExampleEmpty ≠ "partial" := by
  refine ⟨rfl, rfl, ?_, ?_⟩ <;> decide

/-- Claim C6 (amended): the summary is `"offline"` iff zero scanners are
connected (including the empty map), `"online"` iff the map is non-empty and
all scanners are connected, and `"partial"` iff some but not all scanners
are connected. -/
theorem summary_status_characterization (ig : Integration) :
    (getScannerSummaryStatus ig = "offline" ↔ getConnectedScannerCount ig = 0) ∧
    (getScannerSummaryStatus ig = "online" ↔
      (ig.scanners.length ≠ 0 ∧ getConnectedScannerCount ig = ig.scanners.length)) ∧
    (getScannerSummaryStatus ig = "partial" ↔
      (0 < getConnectedScannerCount ig ∧
        getConnectedScannerCount ig < ig.scanners.length)) := by
  have hle : getConnectedScannerCount ig ≤ ig.scanners.length :=
    List.length_filter_le _ _
  unfold getScannerSummaryStatus
  by_cases h0 : getConnectedScannerCount ig = 0
  · rw [if_pos h0]
    refine ⟨by simp [h0], ?_, ?_⟩
    · constructor
      · intro h; exact absurd h (by decide)
      · rintro ⟨hne, hcc⟩; omega
    · constructor
      · intro h; exact absurd h (by decide)
      · rintro ⟨hpos, _⟩; omega
  · rw [if_neg h0]
    by_cases he : getConnectedScannerCount ig = ig.scanners.length
    · rw [if_pos he]
      refine ⟨?_, ?_, ?_⟩
      · constructor
        · intro h; exact absurd h (by decide)
        · intro h; omega
      · constructor
        · intro _; exact ⟨by omega, he⟩
        · intro _; rfl
      · constructor
        · intro h; exact absurd h (by decide)
        · rintro ⟨_, hlt⟩; omega
    · rw [if_neg he]
      refine ⟨?_, ?_, ?_⟩
      · constructor
        · intro h; exact absurd h (by decide)
        · intro h; omega
      · constructor
        · intro h; exact absurd h (by decide)
        · rintro ⟨_, hcc⟩; omega
      · constructor
        · intro _; exact ⟨by omega, by omega⟩
        · intro _; rfl

/-- Counterexample to claim C5 as stated: after a completed first `Stop`
the Scanner Manager's second `Stop` does not succeed — it closes the
already-closed `stopCh` channel, which panics. -/
theorem manager_double_stop_counterexample :
    managerStop (newManagerState [("a", cfgExampleA)]) =
        .ok { scanners := [], stopChClosed := true } ∧
      managerStop { scanners := [], stopChClosed := true } =
        .error "panic: close of closed channel" :=
  ⟨rfl, rfl⟩

/-- Claim C5 (amended): `BarcodeScanner.Stop` is idempotent (a second call
returns the same state and closes no device), but `ScannerManager.Stop` is
not — a first call on a manager with an open stop channel succeeds, and the
second call panics closing the already-closed channel. -/
theorem stop_idempotent_for_sessions_but_not_manager :
    (∀ s : BarcodeScannerState,
        scannerStop (scannerStop s).1 = ((scannerStop s).1, none)) ∧
    (∀ m : ManagerState, m.stopChClosed = false →
        managerStop m = .ok { scanners := [], stopChClosed := true } ∧
          managerStop { scanners := [], stopChClosed := true } =
            .error "panic: close of closed channel") := by
  refine ⟨fun s => rfl, fun m hm => ⟨?_, rfl⟩⟩
  unfold managerStop
  rw [if_neg (by simp [hm])]

lemma startScanner_trace (startOk : String → Bool)
    (scanners : List (String × ScannerConfig)) (cfg : ScannerConfig) :
    (startScanner startOk scanners cfg).2 =
      [.stored cfg.id, .startCalled cfg.id] ++
        (if startOk cfg.id then [] else [.removed cfg.id]) := by
  unfold startScanner
  by_cases h : startOk cfg.id <;> simp [h]

lemma managerFold_trace (startOk : String → Bool) :
    ∀ (configs : List ScannerConfig) (m0 : List (String × ScannerConfig))
      (evs0 : List MgrEvent),
      (configs.foldl
        (fun acc cfg =>
          let r := startScanner startOk acc.1 cfg
          (r.1, acc.2 ++ r.2)) (m0, evs0)).2 =
        evs0 ++ configs.flatMap
          (fun cfg => [.stored cfg.id, .startCalled cfg.id] ++
            (if startOk cfg.id then [] else [.removed cfg.id])) := by
  intro configs
  induction configs with
  | nil => intro m0 evs0; simp
  | cons c cs ih =>
    intro m0 evs0
    simp only [List.foldl_cons, List.flatMap_cons]
    rw [ih]
    rw [startScanner_trace]
    simp

/-- Claim C4: `ScannerManager.Start` probes every config and returns a
fatal error iff the config list is non-empty and zero probes succeed;
otherwise every config gets a session that is stored in the id-keyed map
strictly before its `Start` is called, and a `Start` failure of one session
(its entry is removed again) does not prevent the remaining sessions from
being started. -/
theorem manager_start_probe_gate_and_session_order
    (probe : ScannerConfig → Bool) (startOk : String → Bool)
    (configs : List ScannerConfig) :
    ((∃ e, managerStart probe startOk configs = .error e) ↔
      (configs ≠ [] ∧ ∀ c ∈ configs, probe c = false)) ∧
    (∀ m evs, managerStart probe startOk configs = .ok (m, evs) →
      evs = configs.flatMap
        (fun cfg => [.stored cfg.id, .startCalled cfg.id] ++
          (if startOk cfg.id then [] else [.removed cfg.id]))) := by
  constructor
  · unfold managerStart checkInitialConnections
    by_cases hc : (configs.filter probe).length = 0 ∧ 0 < configs.length
    · rw [if_pos hc]
      constructor
      · intro _
        refine ⟨?_, ?_⟩
        · intro hnil
          rw [hnil] at hc
          exact absurd hc.2 (by simp)
        · intro c hcmem
          have hfil : configs.filter probe = [] := List.length_eq_zero.mp hc.1
          have := List.filter_eq_nil_iff.mp hfil c hcmem
          simpa using this
      · intro _
        exact ⟨_, rfl⟩
    · rw [if_neg hc]
      constructor
      · rintro ⟨e, he⟩
        cases he
      · rintro ⟨hnil, hall⟩
        exfalso
        apply hc
        constructor
        · have hfil : configs.filter probe = [] :=
            List.filter_eq_nil_iff.mpr (fun c hcmem => by simp [hall c hcmem])
          simp [hfil]
        · exact List.length_pos.mpr hnil
  · intro m evs h
    unfold managerStart at h
    cases hchk : checkInitialConnections probe configs with
    | some e => rw [hchk] at h; cases h
    | none =>
      rw [hchk] at h
      injection h with h3
      have hevs : evs = (configs.foldl
          (fun acc cfg =>
            let r := startScanner startOk acc.1 cfg
            (r.1, acc.2 ++ r.2)) ([], [])).2 := by rw [h3]
      rw [hevs, managerFold_trace startOk configs [] []]
      simp

lemma lookup_updateEntry (l : List (String × ScannerDevice)) (id : String)
    (sd v : ScannerDevice) (h : l.lookup id = some sd) :
    (updateEntry l id v).lookup id = some v := by
  induction l with
  | nil => simp at h
  | cons e es ih =>
    obtain ⟨k, b⟩ := e
    by_cases he : k = id
    · subst he
      simp [updateEntry]
    · have hbe : (id == k) = false := beq_eq_false_iff_ne.mpr fun hh => he hh.symm
      simp only [List.lookup, hbe] at h
      have hrec := ih h
      simp only [updateEntry, List.map_cons] at hrec ⊢
      rw [if_neg (show ¬(k, b).1 = id from he)]
      simp only [List.lookup, hbe]
      exact hrec

lemma updateEntry_idem (l : List (String × ScannerDevice)) (id : String)
    (v : ScannerDevice) : updateEntry (updateEntry l id v) id v = updateEntry l id v := by
  induction l with
  | nil => rfl
  | cons e es ih =>
    obtain ⟨k, b⟩ := e
    simp only [updateEntry, List.map_cons] at ih ⊢
    by_cases he : k = id
    · subst he
      simp [ih]
    · simp [he, ih]

lemma forall₂_msgEquiv_refl (l : List MqttMsg) : List.Forall₂ msgEquiv l l :=
  List.forall₂_same.mpr fun _ _ => ⟨rfl, rfl, Or.inl rfl⟩

lemma publishesOrd_equiv (ig' : Integration) (id : String) (x : Bool)
    (ord1 ord2 : List String) (hperm : ord1.Perm ord2) :
    (setScannerConnectedPublishesOrd ig' ord1 id x).2 =
        (setScannerConnectedPublishesOrd ig' ord2 id x).2 ∧
      ((setScannerConnectedPublishesOrd ig' ord1 id x).1.map (fun m => m.topic) =
        (setScannerConnectedPublishesOrd ig' ord2 id x).1.map (fun m => m.topic)) ∧
      List.Forall₂ msgEquiv (setScannerConnectedPublishesOrd ig' ord1 id x).1
        (setScannerConnectedPublishesOrd ig' ord2 id x).1 := by
  cases hlk : ig'.scanners.lookup id with
  | none =>
    have heq : setScannerConnectedPublishesOrd ig' ord1 id x =
        setScannerConnectedPublishesOrd ig' ord2 id x := by
      cases x <;> simp [setScannerConnectedPublishesOrd, publishScannerAvailability, hlk]
    rw [heq]
    exact ⟨rfl, rfl, forall₂_msgEquiv_refl _⟩
  | some sd' =>
    by_cases hmq : ig'.mqttConnected = true
    · cases x
      · simp only [setScannerConnectedPublishesOrd, publishScannerAvailability,
          publishScannerState, publishScannerSummaryOrd, publishDiagnostics,
          bridgeEntityUpdatesOrd, mqttPublish, getDiagnosticsStatus, hlk, hmq, if_true,
          Bool.false_eq_true, if_false, List.cons_append, List.nil_append]
        refine ⟨by trivial, by trivial, ?_⟩
        refine List.Forall₂.cons ⟨rfl, rfl, Or.inl rfl⟩ ?_
        refine List.Forall₂.cons ⟨rfl, rfl, Or.inl rfl⟩ ?_
        refine List.Forall₂.cons
          ⟨rfl, rfl, Or.inr ⟨getConnectedScannerCount ig', ig'.scanners.length,
            ord1, ord2, rfl, rfl, hperm⟩⟩ ?_
        refine List.Forall₂.cons ⟨rfl, rfl, Or.inl rfl⟩ ?_
        exact List.Forall₂.cons ⟨rfl, rfl, Or.inl rfl⟩ List.Forall₂.nil
      · simp only [setScannerConnectedPublishesOrd, publishScannerAvailability,
          publishScannerState, publishScannerSummaryOrd, publishDiagnostics,
          bridgeEntityUpdatesOrd, mqttPublish, getDiagnosticsStatus, hlk, hmq, if_true,
          Bool.false_eq_true, if_false, List.cons_append, List.nil_append]
        refine ⟨by trivial, by trivial, ?_⟩
        refine List.Forall₂.cons ⟨rfl, rfl, Or.inl rfl⟩ ?_
        refine List.Forall₂.cons ⟨rfl, rfl, Or.inl rfl⟩ ?_
        refine List.Forall₂.cons ⟨rfl, rfl, Or.inl rfl⟩ ?_
        refine List.Forall₂.cons
          ⟨rfl, rfl, Or.inr ⟨getConnectedScannerCount ig', ig'.scanners.length,
            ord1, ord2, rfl, rfl, hperm⟩⟩ ?_
        refine List.Forall₂.cons ⟨rfl, rfl, Or.inl rfl⟩ ?_
        exact List.Forall₂.cons ⟨rfl, rfl, Or.inl rfl⟩ List.Forall₂.nil
    · have hmq' : ig'.mqttConnected = false := by
        cases hconn : ig'.mqttConnected
        · rfl
        · exact absurd hconn hmq
      have heq : setScannerConnectedPublishesOrd ig' ord1 id x =
          setScannerConnectedPublishesOrd ig' ord2 id x := by
        cases x <;>
          simp [setScannerConnectedPublishesOrd, publishScannerAvailability,
            mqttPublish, hlk, hmq']
      rw [heq]
      exact ⟨rfl, rfl, forall₂_msgEquiv_refl _⟩

/-- Counterexample to claim C9 as stated: the summary attributes publish a
`scanner_list` gathered by ranging over the Go scanner map, and Go picks a
fresh random range order per statement.  Here the orders `["a","b"]` and
`["b","a"]` are both valid range orders of the same two-scanner map, yet
they make the second call's message list differ from the first's (same
topics, different `scanner_list` payload), so the program does not
guarantee byte-identical payloads. -/
theorem setScannerConnected_payload_order_counterexample :
    validRangeOrder (SetScannerConnectedOrd igTwoExample ["a", "b"] "a" true).1
        ["a", "b"] ∧
      validRangeOrder (SetScannerConnectedOrd igTwoExample ["a", "b"] "a" true).1
        ["b", "a"] ∧
      ((SetScannerConnectedOrd (SetScannerConnectedOrd igTwoExample ["a", "b"] "a" true).1
            ["b", "a"] "a" true).2.1.map (fun m => m.topic) =
        (SetScannerConnectedOrd igTwoExample ["a", "b"] "a" true).2.1.map
          (fun m => m.topic)) ∧
      (SetScannerConnectedOrd (SetScannerConnectedOrd igTwoExample ["a", "b"] "a" true).1
          ["b", "a"] "a" true).2.1 ≠
        (SetScannerConnectedOrd igTwoExample ["a", "b"] "a" true).2.1 := by
  decide

/-- Claim C9 (amended): calling `SetScannerConnected(id, x)` twice in
succession with the same `x` on a registered scanner leaves the state of
the first call unchanged, returns the same error value, and writes the same
topics in the same order; every payload of the second call is identical to
the first call's except the bridge summary's `scanner_list` attribute,
which holds the same scanner ids but in the second call's own map-range
order — a permutation of the first call's list. -/
theorem setScannerConnected_idempotent_up_to_list_order
    (ig : Integration) (id : String) (x : Bool) (sd : ScannerDevice)
    (h : ig.scanners.lookup id = some sd) (ord1 ord2 : List String)
    (hord1 : validRangeOrder (SetScannerConnectedOrd ig ord1 id x).1 ord1)
    (hord2 : validRangeOrder (SetScannerConnectedOrd ig ord1 id x).1 ord2) :
    (SetScannerConnectedOrd (SetScannerConnectedOrd ig ord1 id x).1 ord2 id x).1 =
        (SetScannerConnectedOrd ig ord1 id x).1 ∧
      (SetScannerConnectedOrd (SetScannerConnectedOrd ig ord1 id x).1 ord2 id x).2.2 =
        (SetScannerConnectedOrd ig ord1 id x).2.2 ∧
      ((SetScannerConnectedOrd (SetScannerConnectedOrd ig ord1 id x).1 ord2 id x).2.1.map
          (fun m => m.topic) =
        (SetScannerConnectedOrd ig ord1 id x).2.1.map (fun m => m.topic)) ∧
      List.Forall₂ msgEquiv (SetScannerConnectedOrd ig ord1 id x).2.1
        (SetScannerConnectedOrd (SetScannerConnectedOrd ig ord1 id x).1 ord2 id x).2.1 := by
  have hperm : ord1.Perm ord2 := by
    have h1' : ord1.Perm
        ((SetScannerConnectedOrd ig ord1 id x).1.scanners.map (fun e => e.1)) := hord1
    have h2' : ord2.Perm
        ((SetScannerConnectedOrd ig ord1 id x).1.scanners.map (fun e => e.1)) := hord2
    exact h1'.trans h2'.symm
  have h2 : (updateEntry ig.scanners id { sd with connected := x }).lookup id =
      some { sd with connected := x } := lookup_updateEntry _ _ _ _ h
  simp only [SetScannerConnectedOrd, h, h2]
  rw [updateEntry_idem]
  exact ⟨rfl, (publishesOrd_equiv _ id x ord1 ord2 hperm).1.symm,
    (publishesOrd_equiv _ id x ord1 ord2 hperm).2.1.symm,
    (publishesOrd_equiv _ id x ord1 ord2 hperm).2.2⟩

/-- Counterexample to claim C3 as stated: `SetScannerConnected` publishes
the neutral `"unknown"` state on every call with `connected = true`, not
exactly on transitions — here the scanner is already connected and the
state is published again — and even on a genuine transition to connected it
publishes nothing on the scanner's attributes topic. -/
theorem setScannerConnected_transition_counterexample :
    (igExample.scanners.lookup "s1" = some sdExample ∧ sdExample.connected = true ∧
      ({ topic := "st", payload := .str "unknown", retained := false } : MqttMsg) ∈
        (SetScannerConnected igExample "s1" true).2.1) ∧
    (igExampleOff.scanners.lookup "s1" = some sdExampleOff ∧
      sdExampleOff.connected = false ∧
      ∀ m ∈ (SetScannerConnected igExampleOff "s1" true).2.1, m.topic ≠ "at") := by
  decide

/-- Claim C3 (amended): for a registered scanner and a connected broker,
`SetScannerConnected` publishes the retained availability (`"online"` when
connected, `"offline"` when not); on every call with `connected = true`
(transition or not) it additionally publishes the neutral `"unknown"`
state; it never publishes the scanner's attributes; and it always updates
the bridge scanner-summary and diagnostics entities afterwards. -/
theorem setScannerConnected_publish_behavior (ig : Integration) (id : String) (x : Bool)
    (sd : ScannerDevice) (h : ig.scanners.lookup id = some sd)
    (hmq : ig.mqttConnected = true) :
    SetScannerConnected ig id x =
      (let updated : Integration :=
        { ig with scanners := updateEntry ig.scanners id { sd with connected := x } }
      (updated,
        (if x then
          [{ topic := sd.topics.availability, payload := .str "online", retained := true },
            { topic := sd.topics.state, payload := .str "unknown", retained := false }]
        else
          [{ topic := sd.topics.availability, payload := .str "offline", retained := true }]) ++
          [{ topic := (generateBridgeEntityTopics ig "scanners").state,
              payload := .str (getScannerSummaryStatus updated), retained := false },
            { topic := (generateBridgeEntityTopics ig "scanners").attributes,
              payload := .summaryAttrs (getConnectedScannerCount updated)
                updated.scanners.length (getScannerList updated), retained := false },
            { topic := (generateBridgeEntityTopics ig "diagnostics").state,
              payload := .str "healthy", retained := false },
            { topic := (generateBridgeEntityTopics ig "diagnostics").attributes,
              payload := .diagAttrs ig.version ig.scannerConfigIDs.length,
              retained := false }],
        none)) := by
  have h2 : (updateEntry ig.scanners id { sd with connected := x }).lookup id =
      some { sd with connected := x } := lookup_updateEntry _ _ _ _ h
  cases x <;>
    simp only [SetScannerConnected, setScannerConnectedCore, setScannerConnectedPublishes,
      publishScannerAvailability, publishScannerState, publishScannerSummary,
      publishDiagnostics, bridgeEntityUpdates, mqttPublish, getDiagnosticsStatus,
      h, h2, hmq, if_true, if_false, Bool.false_eq_true, List.cons_append,
      List.nil_append] <;>
    rfl

/-! ## Witnesses: the claim theorems applied at concrete inputs -/

/-- Witness for the finalize claim at a whitespace-padded buffer. -/
theorem hid_finalize_witness :
    procExample.finalizeInput.1.buffer = [] ∧
      procExample.finalizeInput.2 =
        (if trimSpace procExample.buffer = [] then none
          else some (trimSpace procExample.buffer)) ∧
      ([65] : List Nat) ≠ [] :=
  ⟨(hid_finalize_trims_and_never_emits_empty procExample).1,
    (hid_finalize_trims_and_never_emits_empty procExample).2.1,
    (hid_finalize_trims_and_never_emits_empty procExample).2.2 [65] (by decide)⟩

/-- Witness for the buffer-invariant claim at concrete reports. -/
theorem hid_buffer_invariant_witness :
    ((procExample.ProcessData layoutsExample 5 [0, 0, 4]).1.buffer.length ≤
        procExample.bufferCap - 1 ∧
      (procExample.ProcessData layoutsExample 5 [0, 0, 4]).1.bufferCap =
        procExample.bufferCap) ∧
    ((procExample.CheckTimeout 200).1.buffer.length ≤ procExample.bufferCap - 1 ∧
      (procExample.CheckTimeout 200).1.bufferCap = procExample.bufferCap) ∧
    procFullExample.ProcessData layoutsExample 7 [0, 0, 4] = (procFullExample, none) ∧
    procFullExample.ProcessData layoutsExample 9 [0, 0, 40] =
      procFullExample.finalizeInput :=
  ⟨hid_buffer_invariant_and_full_buffer_behavior.1 layoutsExample 5 procExample [0, 0, 4]
      (by decide),
    hid_buffer_invariant_and_full_buffer_behavior.2.1 200 procExample (by decide),
    hid_buffer_invariant_and_full_buffer_behavior.2.2.1 layoutsExample 7 procFullExample
      [0, 0, 4] (by decide) (by decide),
    hid_buffer_invariant_and_full_buffer_behavior.2.2.2 layoutsExample 9 procFullExample
      0 40 (by decide)⟩

/-- Witness for the layout claim at a concrete layout table. -/
theorem layout_fallback_witness :
    GetKeyboardLayout layoutsExample "us" = .ok usExample ∧
    GetKeyboardLayout layoutsExample "xx" = .ok usExample ∧
    lookupChar usExample 57 true = 0 ∧
    lookupChar usExample 4 true = 65 ∧
    lookupChar usExample 34 false = 53 ∧
    lookupChar usExample 100 true = 0 ∧
    lookupChar usExample 77 false = 0 := by
  refine ⟨?_, ?_, ?_, ?_, ?_, ?_, ?_⟩
  · exact layout_fallback_and_lookup_order.1 layoutsExample "us" usExample (by decide)
  · exact layout_fallback_and_lookup_order.2.1 layoutsExample "xx" usExample
      (by decide) (by decide)
  · exact layout_fallback_and_lookup_order.2.2.1 usExample 57 true (by decide)
  · simpa using layout_fallback_and_lookup_order.2.2.2.1 usExample 4 true (97, 65)
      (by decide) (by decide)
  · simpa using layout_fallback_and_lookup_order.2.2.2.2.1 usExample 34 false (53, 37)
      (by decide) (by decide) (by decide)
  · simpa using layout_fallback_and_lookup_order.2.2.2.2.2.1 usExample 100 true (0, 7)
      (by decide) (by decide) (by decide) (by decide)
  · exact layout_fallback_and_lookup_order.2.2.2.2.2.2 usExample 77 false
      (by decide) (by decide) (by decide) (by decide)

/-- Witness for the configuration claim at the all-zero configuration. -/
theorem config_defaults_witness :
    (setMQTTDefaults mqttCfgExample).qos = 1 ∧
    (setMQTTDefaults mqttCfgExample).keepAlive = 60 ∧
    (setMQTTDefaults mqttCfgExample).qos ≠ 0 ∧
    validateMQTTParams (setMQTTDefaults mqttCfgExample) = .ok () :=
  ⟨config_defaults_exclude_qos_zero.1 mqttCfgExample rfl,
    config_defaults_exclude_qos_zero.2.1 mqttCfgExample rfl,
    config_defaults_exclude_qos_zero.2.2.2.2 mqttCfgExample (setMQTTDefaults mqttCfgExample)
      rfl,
    config_defaults_exclude_qos_zero.2.2.2.1 (setMQTTDefaults mqttCfgExample)
      (by decide) (by decide)⟩

/-- Witness for the manager-start claim: two configs, the second session's
start fails, and a separate run where every probe fails. -/
theorem manager_start_witness :
    ([MgrEvent.stored "a", MgrEvent.startCalled "a", MgrEvent.stored "b",
        MgrEvent.startCalled "b", MgrEvent.removed "b"] =
      [cfgExampleA, cfgExampleB].flatMap
        (fun cfg => [.stored cfg.id, .startCalled cfg.id] ++
          (if startOkExampleA cfg.id then [] else [.removed cfg.id]))) ∧
    (∃ e, managerStart (fun _ => false) startOkExampleA [cfgExampleA] = .error e) :=
  ⟨(manager_start_probe_gate_and_session_order probeExampleA startOkExampleA
      [cfgExampleA, cfgExampleB]).2 [("a", cfgExampleA)]
      [MgrEvent.stored "a", MgrEvent.startCalled "a", MgrEvent.stored "b",
        MgrEvent.startCalled "b", MgrEvent.removed "b"] rfl,
    (manager_start_probe_gate_and_session_order (fun _ => false) startOkExampleA
      [cfgExampleA]).1.mpr ⟨by decide, by decide⟩⟩

/-- Witness for the stop claim at a concrete session and manager. -/
theorem stop_idempotence_witness :
    scannerStop (scannerStop scannerStateExample).1 =
        ((scannerStop scannerStateExample).1, none) ∧
      (managerStop (newManagerState [("a", cfgExampleA)]) =
          .ok { scanners := [], stopChClosed := true } ∧
        managerStop { scanners := [], stopChClosed := true } =
          .error "panic: close of closed channel") :=
  ⟨stop_idempotent_for_sessions_but_not_manager.1 scannerStateExample,
    stop_idempotent_for_sessions_but_not_manager.2
      (newManagerState [("a", cfgExampleA)]) rfl⟩

/-- Witness for the amended `SetScannerConnected` double-call claim at the
two-scanner map with two different range orders. -/
theorem setScannerConnected_idempotent_up_to_list_order_witness :
    (SetScannerConnectedOrd (SetScannerConnectedOrd igTwoExample ["a", "b"] "a" true).1
        ["b", "a"] "a" true).1 =
      (SetScannerConnectedOrd igTwoExample ["a", "b"] "a" true).1 :=
  (setScannerConnected_idempotent_up_to_list_order igTwoExample "a" true sdExampleA
    (by decide) ["a", "b"] ["b", "a"] (by decide) (by decide)).1

/-- Witness for the amended `SetScannerConnected` claim: a transition to
connected returns no error. -/
theorem setScannerConnected_publish_behavior_witness :
    (SetScannerConnected igExampleOff "s1" true).2.2 = none := by
  have hthm := setScannerConnected_publish_behavior igExampleOff "s1" true sdExampleOff
    (by decide) rfl
  rw [hthm]

/-- Witness for the summary-status claim at a concrete partially-connected
map. -/
theorem summary_status_witness :
    getScannerSummaryStatus igExample = "online" ∧
      getScannerSummaryStatus igExampleOff = "offline" :=
  ⟨(summary_status_characterization igExample).2.1.mpr (by decide),
    (summary_status_characterization igExampleOff).1.mpr (by decide)⟩

end BarcodeBridge
